import Mathlib

/-!
Verification of the react-auto-tracking event classification and filtering
pipeline.  The definitions below are a shallow embedding of the library's
core modules: the fiber resolver (`src/fiber/resolver.ts`), the fiber
extractor (`src/fiber/extractor.ts`), the event-category table
(`src/filter/event-categories.ts`), the filter engine
(`src/filter/filter-engine.ts`), the element-info extractor
(`src/extract/element-extractor.ts`) and the pipeline orchestrator
(`src/core/pipeline.ts`).  DOM elements are modelled as a tree of records
carrying exactly the attributes the library reads; CSS selector matching is
modelled by listing, on each element, the selectors it matches; the
resolver's process-wide cached property name and the pipeline's last-event
slot are threaded explicitly as state.
-/

namespace RAT

/-- The `type` field of a framework-internal tree node: a tag-name string for
a host-element node, a component reference (function/class) carrying an
optional `displayName` and an optional intrinsic `name`, or some other
non-callable value. -/
inductive FiberType where
  | str : String → FiberType
  | fn : Option String → Option String → FiberType
  | other : FiberType
deriving DecidableEq

/-- A framework-internal tree node (`FiberNode` in `src/fiber/extractor.ts`):
a type, a `memoizedProps` mapping (possibly null; each key paired with
whether its value is callable, which is all the library ever tests), and a
`return` parent back-reference (`leaf` models a null back-reference). -/
inductive FiberNode where
  | leaf : FiberType → Option (List (String × Bool)) → FiberNode
  | node : FiberType → Option (List (String × Bool)) → FiberNode → FiberNode
deriving DecidableEq

/-- The node's `type` field. -/
def FiberNode.ftype : FiberNode → FiberType
  | .leaf t _ => t
  | .node t _ _ => t

/-- The node's `memoizedProps` field (`none` models JS null). -/
def FiberNode.memoizedProps : FiberNode → Option (List (String × Bool))
  | .leaf _ p => p
  | .node _ p _ => p

/-- The node's `return` parent back-reference. -/
def FiberNode.ret : FiberNode → Option FiberNode
  | .leaf _ _ => none
  | .node _ _ r => some r

/-- The attributes of one DOM element that the library reads.
`selectorMatches` models `el.matches`: the set of CSS selectors this element
matches.  `fiberProps` models the element's own enumerable properties in
insertion order (a value of `none` models a property whose value is JS
null).  `isHTML` models `instanceof HTMLElement`. -/
structure ElemData where
  tagName : String
  id : String := ""
  className : Option String := some ""
  textContent : Option String := some ""
  roleAttr : Option String := none
  hasDisabledAttr : Bool := false
  ariaDisabled : Option String := none
  selectorMatches : List String := []
  fiberProps : List (String × Option FiberNode) := []
  hrefVal : String := ""
  typeAttrVal : String := ""
  dataAttrs : List (String × String) := []
  isHTML : Bool := true
deriving DecidableEq

/-- A DOM element together with its ancestor chain (`parentElement`);
`root` models a null `parentElement`. -/
inductive Elem where
  | root : ElemData → Elem
  | child : ElemData → Elem → Elem
deriving DecidableEq

/-- The element's own attribute record. -/
def Elem.dat : Elem → ElemData
  | .root d => d
  | .child d _ => d

/-- The element's `parentElement`. -/
def Elem.parentElement : Elem → Option Elem
  | .root _ => none
  | .child _ p => some p

/-! ### Fiber resolver (`src/fiber/resolver.ts`) -/

/-- `FIBER_PREFIXES`: the two key stems React uses for the fiber property
attached to a DOM element. -/
def FIBER_KEY_STARTS : List String := ["__reactFiber$", "__reactInternalInstance$"]

/-- `MAX_PARENT_DEPTH` in `src/fiber/resolver.ts`. -/
def MAX_PARENT_DEPTH : Nat := 10

/-- `key.startsWith(stem)`, expressed on the underlying character lists. -/
def strStarts (key stem : String) : Bool :=
  stem.data.isPrefixOf key.data

/-- Whether a property key begins with one of the two known fiber key stems. -/
def isFiberKey (key : String) : Bool :=
  FIBER_KEY_STARTS.any (fun p => strStarts key p)

/-- The scan loop of `getFiberFromElement`: the first own property whose key
begins with a known stem, together with its value. -/
def findFiberKey : List (String × Option FiberNode) → Option (String × Option FiberNode)
  | [] => none
  | (k, v) :: rest => if isFiberKey k then some (k, v) else findFiberKey rest

/-- `getFiberFromElement`, with the module-level `cachedKey` threaded as
explicit state: with a cached key, read that exact property (present and
non-null, else miss) without re-scanning and without touching the cache;
with no cached key, scan the element's own properties, caching the first
key that matches a stem, and miss without caching when none matches. -/
def getFiberFromElement (cache : Option String) (d : ElemData) :
    Option FiberNode × Option String :=
  match cache with
  | some key =>
    match d.fiberProps.lookup key with
    | some (some f) => (some f, some key)
    | _ => (none, some key)
  | none =>
    match findFiberKey d.fiberProps with
    | some (k, v) => (v, some k)
    | none => (none, none)

/-- The `while (current !== null && depth <= MAX_PARENT_DEPTH)` loop of
`resolveFiber`. -/
def resolveFiberGo : Elem → Nat → Option String → Option FiberNode × Option String
  | e, depth, cache =>
    if MAX_PARENT_DEPTH < depth then (none, cache)
    else
      match getFiberFromElement cache e.dat with
      | (some f, c) => (some f, c)
      | (none, c) =>
        match e with
        | .root _ => (none, c)
        | .child _ p => resolveFiberGo p (depth + 1) c

/-- `resolveFiber`: starting at the given element, look for a fiber property,
walking up `parentElement` references while none is found, bounded by
`MAX_PARENT_DEPTH`. -/
def resolveFiber (cache : Option String) (element : Elem) :
    Option FiberNode × Option String :=
  resolveFiberGo element 0 cache

/-! ### Event-category table (`src/filter/event-categories.ts`) -/

/-- `EventCategory`. -/
inductive EventCategory where
  | pointer : EventCategory
  | form : EventCategory
  | ambient : EventCategory
deriving DecidableEq

/-- `getEventCategory`: `CATEGORY_MAP[eventType] ?? EventCategory.Ambient`. -/
def getEventCategory : String → EventCategory
  | "click" => .pointer
  | "touchstart" => .pointer
  | "touchend" => .pointer
  | "input" => .form
  | "change" => .form
  | "focus" => .form
  | "blur" => .form
  | "submit" => .form
  | "scroll" => .ambient
  | "keydown" => .ambient
  | "keyup" => .ambient
  | "copy" => .ambient
  | "paste" => .ambient
  | _ => .ambient

/-- `getHandlersForEvent`: `EVENT_HANDLER_MAP[eventType] ?? []`. -/
def getHandlersForEvent : String → List String
  | "click" => ["onClick", "onMouseDown", "onMouseUp", "onPointerDown", "onPointerUp"]
  | "touchstart" => ["onTouchStart"]
  | "touchend" => ["onTouchEnd"]
  | "input" => ["onChange", "onInput"]
  | "change" => ["onChange"]
  | "focus" => ["onFocus"]
  | "blur" => ["onBlur"]
  | "submit" => ["onSubmit"]
  | "scroll" => ["onScroll"]
  | "keydown" => ["onKeyDown"]
  | "keyup" => ["onKeyUp"]
  | "copy" => ["onCopy"]
  | "paste" => ["onPaste"]
  | _ => []

/-! ### Filter engine (`src/filter/filter-engine.ts`) -/

/-- `INTERACTIVE_TAGS`. -/
def INTERACTIVE_TAGS : List String :=
  ["BUTTON", "A", "INPUT", "SELECT", "TEXTAREA", "SUMMARY", "DETAILS"]

/-- `INTERACTIVE_ROLES`. -/
def INTERACTIVE_ROLES : List String :=
  ["button", "link", "menuitem", "tab", "checkbox", "radio",
   "combobox", "listbox", "option", "switch", "slider", "spinbutton",
   "menuitemcheckbox", "menuitemradio", "treeitem", "gridcell",
   "textbox", "searchbox"]

/-- `MAX_ANCESTOR_DEPTH` in `src/filter/filter-engine.ts`. -/
def MAX_ANCESTOR_DEPTH : Nat := 10

/-- `isIgnored`: whether the element matches some selector in
`ignoreSelectors`. -/
def isIgnored (e : ElemData) (ignoreSelectors : List String) : Bool :=
  ignoreSelectors.any (fun sel => e.selectorMatches.contains sel)

/-- `isDisabled`: a boolean `disabled` attribute or `aria-disabled="true"`. -/
def isDisabled (e : ElemData) : Bool :=
  e.hasDisabledAttr || e.ariaDisabled == some "true"

/-- `typeof props[key] === 'function'` on the declared-props mapping. -/
def propIsFunction (props : List (String × Bool)) (key : String) : Bool :=
  match props.lookup key with
  | some b => b
  | none => false

/-- `isInteractiveElement`: semantic tag, then ARIA role, then a callable
candidate handler prop on the element's resolved fiber.  The fiber lookup
goes through `resolveFiber`, so the resolver cache is threaded. -/
def isInteractiveElement (cache : Option String) (el : Elem) (eventType : String) :
    Bool × Option String :=
  if INTERACTIVE_TAGS.contains el.dat.tagName then (true, cache)
  else if (match el.dat.roleAttr with
           | some r => INTERACTIVE_ROLES.contains r
           | none => false) then (true, cache)
  else
    let handlers := getHandlersForEvent eventType
    if handlers.isEmpty then (false, cache)
    else
      match resolveFiber cache el with
      | (some f, c) =>
        match f.memoizedProps with
        | some props => (handlers.any (fun h => propIsFunction props h), c)
        | none => (false, c)
      | (none, c) => (false, c)

/-- The `while (current !== null && depth <= MAX_ANCESTOR_DEPTH)` loop of
`findPointerTarget`: at each visited element, ignored aborts, then disabled
aborts, then interactivity returns the element, else move to the parent. -/
def findPointerTargetGo : Elem → Nat → List String → String → Option String →
    Option Elem × Option String
  | e, depth, ignoreSelectors, eventType, cache =>
    if MAX_ANCESTOR_DEPTH < depth then (none, cache)
    else if isIgnored e.dat ignoreSelectors then (none, cache)
    else if isDisabled e.dat then (none, cache)
    else
      match isInteractiveElement cache e eventType with
      | (true, c) => (some e, c)
      | (false, c) =>
        match e with
        | .root _ => (none, c)
        | .child _ p => findPointerTargetGo p (depth + 1) ignoreSelectors eventType c

/-- `findPointerTarget`. -/
def findPointerTarget (target : Elem) (ignoreSelectors : List String)
    (eventType : String) (cache : Option String) : Option Elem × Option String :=
  findPointerTargetGo target 0 ignoreSelectors eventType cache

/-- `filterFormTarget`: target itself only, ignored then disabled reject. -/
def filterFormTarget (target : Elem) (ignoreSelectors : List String) : Option Elem :=
  if isIgnored target.dat ignoreSelectors then none
  else if isDisabled target.dat then none
  else some target

/-- `filterAmbientTarget`: target itself only, ignored rejects; disabled is
not checked. -/
def filterAmbientTarget (target : Elem) (ignoreSelectors : List String) : Option Elem :=
  if isIgnored target.dat ignoreSelectors then none
  else some target

/-- `getTrackableElement`: non-HTMLElement targets are rejected up front,
then the category of the event name picks the filter strategy. -/
def getTrackableElement (cache : Option String) (target : Elem)
    (ignoreSelectors : List String) (eventType : String) :
    Option Elem × Option String :=
  if !target.dat.isHTML then (none, cache)
  else
    match getEventCategory eventType with
    | .pointer => findPointerTargetGo target 0 ignoreSelectors eventType cache
    | .form => (filterFormTarget target ignoreSelectors, cache)
    | .ambient => (filterAmbientTarget target ignoreSelectors, cache)

/-! ### Fiber extractor (`src/fiber/extractor.ts`) -/

/-- `MAX_STACK_DEPTH` in `src/fiber/extractor.ts`. -/
def MAX_STACK_DEPTH : Nat := 50

/-- `HANDLER_PREFIX` in `src/fiber/extractor.ts`: the two-letter stem of
handler prop names. -/
def HANDLER_KEY_START : String := "on"

/-- `FiberInfo`. -/
structure FiberInfo where
  componentName : Option String
  componentStack : List String
  handlers : List String
deriving DecidableEq

/-- `extractHandlers`: every declared-prop key that begins with the handler
stem and whose value is callable, in insertion order; a null props mapping
is treated as empty. -/
def extractHandlers (f : FiberNode) : List String :=
  match f.memoizedProps with
  | none => []
  | some props =>
    (props.filter (fun kv => strStarts kv.1 HANDLER_KEY_START && kv.2)).map (fun kv => kv.1)

/-- `getComponentName`: null for a string type, else
`type.displayName ?? type.name ?? null` for a component reference. -/
def getComponentName (f : FiberNode) : Option String :=
  match f.ftype with
  | .str _ => none
  | .fn dispName intrinsicName =>
    match dispName with
    | some d => some d
    | none => intrinsicName
  | .other => none

/-- The `while (current !== null && depth < MAX_STACK_DEPTH)` loop of
`extractComponentInfo`: named component nodes are appended to the stack,
the first name found also becomes `componentName`, string-typed nodes
contribute nothing. -/
def walkComponents : FiberNode → Nat → Option String → List String →
    Option String × List String
  | f, depth, name, stack =>
    if MAX_STACK_DEPTH ≤ depth then (name, stack)
    else
      let next :=
        match getComponentName f with
        | some n => ((match name with | some x => some x | none => some n), stack ++ [n])
        | none => (name, stack)
      match f with
      | .leaf _ _ => next
      | .node _ _ parent => walkComponents parent (depth + 1) next.1 next.2

/-- `extractComponentInfo`: the walk starts at the node's `return`
back-reference, never at the node itself. -/
def extractComponentInfo (f : FiberNode) : Option String × List String :=
  match f with
  | .leaf _ _ => (none, [])
  | .node _ _ parent => walkComponents parent 0 none []

/-- `extractFiberInfo`: absent input yields absent output. -/
def extractFiberInfo : Option FiberNode → Option FiberInfo
  | none => none
  | some f =>
    let handlers := extractHandlers f
    let info := extractComponentInfo f
    some { componentName := info.1, componentStack := info.2, handlers := handlers }

/-! ### Element-info extractor (`src/extract/element-extractor.ts`) -/

/-- `ElementInfo`. -/
structure ElementInfo where
  tagName : String
  id : String
  className : String
  text : String
  href : Option String
  role : Option String
  type : Option String
  dataset : List (String × String)
deriving DecidableEq

/-- `MAX_TEXT_LENGTH`. -/
def MAX_TEXT_LENGTH : Nat := 100

/-- `extractElementInfo`: trimmed text truncated to 100 characters, `href`
only for the link tag, input `type` only for the input tag. -/
def extractElementInfo (element : Elem) : ElementInfo :=
  let text := (element.dat.textContent.getD "").trim
  { tagName := element.dat.tagName,
    id := element.dat.id,
    className := element.dat.className.getD "",
    text := if MAX_TEXT_LENGTH < text.length then text.take MAX_TEXT_LENGTH else text,
    href := if element.dat.tagName = "A" then some element.dat.hrefVal else none,
    role := element.dat.roleAttr,
    type := if element.dat.tagName = "INPUT" then some element.dat.typeAttrVal else none,
    dataset := element.dat.dataAttrs }

/-! ### Pipeline (`src/core/pipeline.ts`) -/

/-- `ResolvedConfig` in `src/types.ts`. -/
structure ResolvedConfig where
  enabled : Bool
  ignoreSelectors : List String
  includeSelectors : Option (List String)
  debug : Bool
deriving DecidableEq

/-- A raw DOM event's `target`: either not an Element at all (text node,
document, window) or an Element (whose `isHTML` field distinguishes
HTMLElement from, e.g., SVG elements). -/
inductive EventTarget where
  | nonElement : EventTarget
  | element : Elem → EventTarget
deriving DecidableEq

/-- A raw DOM event: its `type` name and its `target`. -/
structure DomEvent where
  type : String
  target : EventTarget
deriving DecidableEq

/-- `TrackEvent`: the assembled record. -/
structure TrackEvent where
  type : String
  timestamp : Nat
  element : ElementInfo
  fiber : Option FiberInfo
  raw : DomEvent
  rawFiberNode : Option FiberNode
deriving DecidableEq

/-- The pipeline's mutable state: the single last-event slot and the
resolver's process-wide cached property name. -/
structure PipelineState where
  lastEvent : Option TrackEvent
  fiberCache : Option String
deriving DecidableEq

/-- `handleEvent` in `src/core/pipeline.ts`, with `Date.now()` passed in as
`now`.  The first component of the result is the record passed to
`registry.invoke` (`none` when the dispatch was rejected and no callback
runs); the second is the updated pipeline state. -/
def handleEvent (config : ResolvedConfig) (st : PipelineState) (domEvent : DomEvent)
    (now : Nat) : Option TrackEvent × PipelineState :=
  if !config.enabled then (none, st)
  else
    match domEvent.target with
    | .nonElement => (none, st)
    | .element target =>
      match getTrackableElement st.fiberCache target config.ignoreSelectors domEvent.type with
      | (none, c) => (none, { st with fiberCache := c })
      | (some trackableElement, c) =>
        let elementInfo := extractElementInfo trackableElement
        let resolved := resolveFiber c trackableElement
        let fiberInfo := extractFiberInfo resolved.1
        let trackEvent : TrackEvent :=
          { type := domEvent.type, timestamp := now, element := elementInfo,
            fiber := fiberInfo, raw := domEvent, rawFiberNode := resolved.1 }
        (some trackEvent, { lastEvent := some trackEvent, fiberCache := resolved.2 })

/-! ### Concrete test data -/

/-- A plain non-interactive `<div>`. -/
def divD : ElemData := { tagName := "DIV" }

/-- `nestDivs n top`: an element with `n` nested plain `<div>` wrappers whose
outermost ancestor chain continues with `top`; the innermost `<div>` is the
event target, `top` sits `n` levels above it. -/
def nestDivs : Nat → Elem → Elem
  | 0, top => top
  | n + 1, top => Elem.child divD (nestDivs n top)

/-- A parentless interactive `<button>`. -/
def btnTop : Elem := Elem.root { tagName := "BUTTON" }

/-- A default-resolved configuration (enabled, no selectors, no debug). -/
def defaultConfig : ResolvedConfig :=
  { enabled := true, ignoreSelectors := [], includeSelectors := none, debug := false }

/-- An initial pipeline state: empty last-event slot, empty resolver cache. -/
def initState : PipelineState := { lastEvent := none, fiberCache := none }

/-- The configuration of C1's scenario: `includeSelectors` set to
`['nav a']`. -/
def c1_config : ResolvedConfig :=
  { enabled := true, ignoreSelectors := [], includeSelectors := some ["nav a"], debug := false }

/-- A `<button>` outside any `<nav>`: it matches no CSS selector, in
particular not `'nav a'`. -/
def c1_button : Elem := Elem.root { tagName := "BUTTON" }

/-- A click whose target is the button outside `<nav>`. -/
def c1_event : DomEvent := { type := "click", target := EventTarget.element c1_button }

/-- A fiber node attached to C2's parent element. -/
def c2_fiber : FiberNode := FiberNode.leaf (FiberType.str "div") (some [])

/-- C2's parent element: carries a fiber property. -/
def c2_parentData : ElemData :=
  { tagName := "DIV", fiberProps := [("__reactFiber$abc", some c2_fiber)] }

/-- C2's target element data: a `<span>` with no fiber property of its own. -/
def c2_childData : ElemData := { tagName := "SPAN" }

/-- C2's target element: fiber-less `<span>` under the fiber-carrying
parent. -/
def c2_child : Elem := Elem.child c2_childData (Elem.root c2_parentData)

/-- An element matching the ignore selector `.no-track` that is also
tag-interactive, role-interactive and disabled. -/
def c6_elem : Elem :=
  Elem.root { tagName := "BUTTON", roleAttr := some "button",
              hasDisabledAttr := true, selectorMatches := [".no-track"] }

/-- A disabled `<input>` element. -/
def c7_elem : Elem := Elem.root { tagName := "INPUT", hasDisabledAttr := true }

/-- A `<button>` with no fiber property attached anywhere in its chain. -/
def c8_button : Elem := Elem.root { tagName := "BUTTON" }

/-- A click on the fiber-less button. -/
def c8_event : DomEvent := { type := "click", target := EventTarget.element c8_button }

/-- The `App` component node at the top of C9's chain: a function named
`App`, null parent back-reference. -/
def c9_app : FiberNode := FiberNode.leaf (FiberType.fn none (some "App")) (some [])

/-- The `Form` component node, below `App`. -/
def c9_form : FiberNode := FiberNode.node (FiberType.fn none (some "Form")) (some []) c9_app

/-- The `SubmitButton` component node, below `Form`. -/
def c9_submit : FiberNode :=
  FiberNode.node (FiberType.fn none (some "SubmitButton")) (some []) c9_form

/-- The host-element node for the `<button>` target: string type, an
`onClick` handler and a non-callable `children` prop, below `SubmitButton`. -/
def c9_host : FiberNode :=
  FiberNode.node (FiberType.str "button") (some [("onClick", true), ("children", false)]) c9_submit

/-- A chain exercising host-element skipping: the named `Button` node's
parent is a string-typed `div` node whose parent is the `App` node. -/
def c9_skip : FiberNode :=
  FiberNode.node (FiberType.fn none (some "Button")) (some [])
    (FiberNode.node (FiberType.str "div") none c9_app)

/-- `mkStrChain n t`: `n` string-typed (`div`) nodes whose parent chain ends
in `t`. -/
def mkStrChain : Nat → FiberNode → FiberNode
  | 0, t => t
  | n + 1, t => FiberNode.node (FiberType.str "div") none (mkStrChain n t)

/-- An SVG element: an Element but not an HTMLElement. -/
def c10_svg : Elem := Elem.root { tagName := "svg", isHTML := false }

/-! ### Helper lemmas -/

/-- With a cached key, `getFiberFromElement` returns the cache unchanged. -/
theorem getFiberFromElement_cache_stable (k : String) (d : ElemData) :
    (getFiberFromElement (some k) d).2 = some k := by
  simp only [getFiberFromElement]
  split <;> rfl

/-- With a cached key, the full resolver walk returns the cache unchanged. -/
theorem resolveFiberGo_cache_stable :
    ∀ (e : Elem) (depth : Nat) (k : String),
      (resolveFiberGo e depth (some k)).2 = some k := by
  intro e
  induction e with
  | root d =>
    intro depth k
    rcases hE : getFiberFromElement (some k) d with ⟨fo, c⟩
    have hc : c = some k := by
      have h := getFiberFromElement_cache_stable k d
      rw [hE] at h
      exact h
    subst hc
    unfold resolveFiberGo
    split
    · rfl
    · simp only [Elem.dat, hE]
      cases fo <;> rfl
  | child d p ih =>
    intro depth k
    rcases hE : getFiberFromElement (some k) d with ⟨fo, c⟩
    have hc : c = some k := by
      have h := getFiberFromElement_cache_stable k d
      rw [hE] at h
      exact h
    subst hc
    unfold resolveFiberGo
    split
    · rfl
    · simp only [Elem.dat, hE]
      cases fo with
      | some f => rfl
      | none => exact ih (depth + 1) k

/-- When no own property key matches a fiber key stem, the scan finds
nothing. -/
theorem findFiberKey_eq_none :
    ∀ (l : List (String × Option FiberNode)),
      (∀ kv ∈ l, isFiberKey kv.1 = false) → findFiberKey l = none := by
  intro l
  induction l with
  | nil => intro _; rfl
  | cons kv rest ih =>
    intro h
    unfold findFiberKey
    rw [h kv (List.mem_cons_self kv rest)]
    exact ih (fun kv2 h2 => h kv2 (List.mem_cons_of_mem kv h2))

/-- The pointer walk aborts with "absent" whenever the element it currently
visits (at any depth within the bound) matches an ignore selector, no matter
what the rest of the ancestor chain contains. -/
theorem findPointerTargetGo_ignored (e : Elem) (depth : Nat) (isel : List String)
    (etype : String) (cache : Option String)
    (hdepth : depth ≤ MAX_ANCESTOR_DEPTH) (hig : isIgnored e.dat isel = true) :
    findPointerTargetGo e depth isel etype cache = (none, cache) := by
  unfold findPointerTargetGo
  rw [if_neg (by omega), if_pos hig]

/-- A non-HTMLElement target is rejected by `getTrackableElement` before any
category dispatch. -/
theorem getTrackableElement_nonHTML (cache : Option String) (target : Elem)
    (isel : List String) (etype : String) (h : target.dat.isHTML = false) :
    getTrackableElement cache target isel etype = (none, cache) := by
  unfold getTrackableElement
  rw [h]
  rfl

/-- Walking a chain of string-typed nodes leaves the accumulators unchanged:
the walk reaches the node below the chain when the bound allows it and stops
with its accumulators otherwise. -/
theorem walkComponents_strChain :
    ∀ (n depth : Nat) (name : Option String) (stack : List String) (t : FiberNode),
      walkComponents (mkStrChain n t) depth name stack =
        if depth + n ≤ MAX_STACK_DEPTH then walkComponents t (depth + n) name stack
        else (name, stack) := by
  intro n
  induction n with
  | zero =>
    intro depth name stack t
    simp only [mkStrChain, Nat.add_zero]
    by_cases h : depth ≤ MAX_STACK_DEPTH
    · rw [if_pos h]
    · rw [if_neg h]
      unfold walkComponents
      rw [if_pos (show MAX_STACK_DEPTH ≤ depth by omega)]
  | succ n ih =>
    intro depth name stack t
    have step : walkComponents (mkStrChain (n + 1) t) depth name stack =
        if MAX_STACK_DEPTH ≤ depth then (name, stack)
        else walkComponents (mkStrChain n t) (depth + 1) name stack := rfl
    rw [step]
    by_cases h : MAX_STACK_DEPTH ≤ depth
    · rw [if_pos h, if_neg (show ¬ depth + (n + 1) ≤ MAX_STACK_DEPTH by omega)]
    · rw [if_neg h, ih]
      have harith : depth + 1 + n = depth + (n + 1) := by omega
      rw [harith]

/-! ### Claims -/

/-- C1: The claim states that when `includeSelectors` is configured,
`getTrackableElement` treats an element as reportable for Pointer events
if and only if it matches some selector in `includeSelectors`, so a
`<button>` outside `<nav>` is NOT returned under `includeSelectors`
`['nav a']`.  The filter engine does not implement this: `getTrackableElement`
has no `includeSelectors` input, the pipeline never reads
`config.includeSelectors`, and heuristic interactive detection still applies
— so the button outside `<nav>` IS returned and dispatched, and the dispatch
outcome is identical under every `includeSelectors` setting. -/
theorem c1_theorem :
    (getTrackableElement none c1_button [] "click").1 = some c1_button ∧
    ((handleEvent c1_config initState c1_event 0).1).map (fun r => r.element.tagName) =
      some "BUTTON" ∧
    ∀ inc : Option (List String),
      handleEvent { c1_config with includeSelectors := inc } initState c1_event 0 =
        handleEvent c1_config initState c1_event 0 :=
  ⟨by decide, rfl, fun _ => rfl⟩

/-- C2 counterexample: the target `<span>` carries no fiber property of its
own, yet both resolution paths (they are the same function, `resolveFiber`)
return the fiber attached to its DOM parent rather than "absent", because
the resolver walks ancestors. -/
theorem c2_counterexample :
    c2_childData.fiberProps = [] ∧ (resolveFiber none c2_child).1 = some c2_fiber :=
  ⟨rfl, by decide⟩

/-- C2 (amended): the internal-node resolution used by the Pointer
handler-prop check and by pipeline enrichment is `resolveFiber`, which walks
`parentElement` references (bounded at 10 levels): when the element itself
yields no fiber, the fiber found on its parent is returned. -/
theorem c2_theorem (cache c₁ c₂ : Option String) (d : ElemData) (p : Elem) (f : FiberNode)
    (h₁ : getFiberFromElement cache d = (none, c₁))
    (h₂ : getFiberFromElement c₁ p.dat = (some f, c₂)) :
    resolveFiber cache (Elem.child d p) = (some f, c₂) := by
  unfold resolveFiber
  rw [resolveFiberGo.eq_def]
  simp only [Elem.dat]
  rw [if_neg (by decide), h₁]
  show resolveFiberGo p (0 + 1) c₁ = (some f, c₂)
  cases p with
  | root d2 =>
    rw [resolveFiberGo.eq_def]
    simp only [Elem.dat] at h₂ ⊢
    rw [if_neg (by decide), h₂]
  | child d2 q =>
    rw [resolveFiberGo.eq_def]
    simp only [Elem.dat] at h₂ ⊢
    rw [if_neg (by decide), h₂]

/-- C2 witness: the amended statement at the concrete two-element chain of
the counterexample — the parent's fiber and the newly cached key are
returned. -/
theorem c2_witness :
    resolveFiber none c2_child = (some c2_fiber, some "__reactFiber$abc") :=
  c2_theorem none none (some "__reactFiber$abc") c2_childData (Elem.root c2_parentData)
    c2_fiber (by decide) (by decide)

/-- C3: for Pointer events the upward ancestor search of
`getTrackableElement` is bounded: with 12 nested non-interactive `<div>`
ancestors between the target and the interactive `<button>` the result is
absent, while with exactly 9 such ancestors the button (sitting at depth 10)
is found and returned. -/
theorem c3_theorem :
    (getTrackableElement none (nestDivs 13 btnTop) [] "click").1 = none ∧
    (getTrackableElement none (nestDivs 10 btnTop) [] "click").1 = some btnTop :=
  ⟨by decide, by decide⟩

/-- C4: after `handleEvent`, the last-event slot holds the dispatched record
whenever the dispatch succeeded (the assignment does not consult the
listener registry, so this holds even with zero listeners), and is exactly
the previous slot whenever the dispatch was rejected (tracker disabled,
non-Element target, or filter returning absent). -/
theorem c4_theorem (config : ResolvedConfig) (st : PipelineState) (ev : DomEvent) (now : Nat) :
    ((handleEvent config st ev now).2).lastEvent =
      ((handleEvent config st ev now).1).orElse (fun _ => st.lastEvent) := by
  unfold handleEvent
  split
  · rfl
  · split
    · rfl
    · split
      · rfl
      · rfl

/-- C5: the resolver's cached property name, once set, is returned unchanged
by every lookup and by the whole resolver walk; with a cached name, an
element that lacks a property of exactly that name — for example one whose
fiber key carries a different random suffix under the same known stem —
resolves to absent; and a scan on which no property matches any stem
returns absent without setting the cache. -/
theorem c5_theorem :
    (∀ (k : String) (d : ElemData), (getFiberFromElement (some k) d).2 = some k) ∧
    (∀ (k : String) (e : Elem), (resolveFiber (some k) e).2 = some k) ∧
    (∀ (k : String) (d : ElemData), d.fiberProps.lookup k = none →
        getFiberFromElement (some k) d = (none, some k)) ∧
    (∀ (d : ElemData), (∀ kv ∈ d.fiberProps, isFiberKey kv.1 = false) →
        getFiberFromElement none d = (none, none)) := by
  refine ⟨getFiberFromElement_cache_stable,
    fun k e => resolveFiberGo_cache_stable e 0 k, ?_, ?_⟩
  · intro k d h
    simp only [getFiberFromElement, h]
  · intro d h
    simp only [getFiberFromElement, findFiberKey_eq_none d.fiberProps h]

/-- C5 witness: with `__reactFiber$abc` cached, an element whose only fiber
key is `__reactFiber$xyz` (same stem, different suffix) resolves to absent
with the cache intact, and a scan over an element with no matching property
returns absent with the cache still unset. -/
theorem c5_witness :
    getFiberFromElement (some "__reactFiber$abc")
        { tagName := "DIV", fiberProps := [("__reactFiber$xyz", some c2_fiber)] } =
      (none, some "__reactFiber$abc") ∧
    (resolveFiber (some "__reactFiber$abc")
        (Elem.root { tagName := "DIV",
                     fiberProps := [("__reactFiber$xyz", some c2_fiber)] })).2 =
      some "__reactFiber$abc" ∧
    getFiberFromElement none { tagName := "DIV", fiberProps := [("nothere", none)] } =
      (none, none) :=
  ⟨c5_theorem.2.2.1 "__reactFiber$abc" _ (by decide),
   c5_theorem.2.1 "__reactFiber$abc" _,
   c5_theorem.2.2.2 _ (by decide)⟩

/-- C6: an element matching some `ignoreSelectors` entry is never returned by
`getTrackableElement`, whatever the event category, tag, role or disabled
state; and for Pointer events the ignore check fires at every visited
element, within the depth bound, before the disabled check and before any
reportability test, aborting the whole search regardless of what the rest
of the ancestor chain contains. -/
theorem c6_theorem :
    (∀ (cache : Option String) (target : Elem) (isel : List String) (etype : String),
        isIgnored target.dat isel = true →
        (getTrackableElement cache target isel etype).1 = none) ∧
    (∀ (e : Elem) (depth : Nat) (isel : List String) (etype : String) (cache : Option String),
        depth ≤ MAX_ANCESTOR_DEPTH → isIgnored e.dat isel = true →
        findPointerTargetGo e depth isel etype cache = (none, cache)) := by
  constructor
  · intro cache target isel etype hig
    unfold getTrackableElement
    cases hh : target.dat.isHTML with
    | false => rfl
    | true =>
      show (match getEventCategory etype with
            | EventCategory.pointer => findPointerTargetGo target 0 isel etype cache
            | EventCategory.form => (filterFormTarget target isel, cache)
            | EventCategory.ambient => (filterAmbientTarget target isel, cache)).1 = none
      cases getEventCategory etype with
      | pointer =>
        rw [findPointerTargetGo_ignored target 0 isel etype cache (by decide) hig]
      | form =>
        show filterFormTarget target isel = none
        unfold filterFormTarget
        rw [if_pos hig]
      | ambient =>
        show filterAmbientTarget target isel = none
        unfold filterAmbientTarget
        rw [if_pos hig]
  · exact fun e depth isel etype cache hd hig =>
      findPointerTargetGo_ignored e depth isel etype cache hd hig

/-- C6 witness: an ignored element that is tag-interactive, role-interactive
and disabled is rejected for a Pointer, a Form and an Ambient event. -/
theorem c6_witness :
    (getTrackableElement none c6_elem [".no-track"] "click").1 = none ∧
    (getTrackableElement none c6_elem [".no-track"] "change").1 = none ∧
    (getTrackableElement none c6_elem [".no-track"] "scroll").1 = none :=
  ⟨c6_theorem.1 none c6_elem [".no-track"] "click" (by decide),
   c6_theorem.1 none c6_elem [".no-track"] "change" (by decide),
   c6_theorem.1 none c6_elem [".no-track"] "scroll" (by decide)⟩

/-- C7: disabled-state filtering is asymmetric: for every Form event a
disabled target yields absent regardless of its tag, while for every Ambient
event a disabled (but not ignored) HTMLElement target is still returned —
disabled state is not consulted at all on the Ambient path. -/
theorem c7_theorem :
    (∀ (cache : Option String) (target : Elem) (isel : List String) (etype : String),
        getEventCategory etype = EventCategory.form → isDisabled target.dat = true →
        (getTrackableElement cache target isel etype).1 = none) ∧
    (∀ (cache : Option String) (target : Elem) (isel : List String) (etype : String),
        getEventCategory etype = EventCategory.ambient →
        isIgnored target.dat isel = false → target.dat.isHTML = true →
        getTrackableElement cache target isel etype = (some target, cache)) := by
  constructor
  · intro cache target isel etype hcat hdis
    unfold getTrackableElement
    rw [hcat]
    cases hh : target.dat.isHTML with
    | false => rfl
    | true =>
      show filterFormTarget target isel = none
      unfold filterFormTarget
      by_cases hig : isIgnored target.dat isel = true
      · rw [if_pos hig]
      · rw [if_neg hig, if_pos hdis]
  · intro cache target isel etype hcat hig hh
    unfold getTrackableElement
    rw [hcat, hh]
    show (filterAmbientTarget target isel, cache) = (some target, cache)
    unfold filterAmbientTarget
    rw [if_neg (by rw [hig]; exact Bool.false_ne_true)]

/-- C7 witness: a disabled `<input>` is rejected for the Form event `change`
but returned for the Ambient event `scroll`. -/
theorem c7_witness :
    (getTrackableElement none c7_elem [] "change").1 = none ∧
    getTrackableElement none c7_elem [] "scroll" = (some c7_elem, none) :=
  ⟨c7_theorem.1 none c7_elem [] "change" (by decide) (by decide),
   c7_theorem.2 none c7_elem [] "scroll" (by decide) (by decide) (by decide)⟩

/-- C8: fiber information is enrichment, never a gate: when the filter
selects a trackable element whose fiber resolution misses, `handleEvent`
still dispatches — the assembled record carries `fiber = none` and
`rawFiberNode = none` with the element info extracted as usual, the record
is handed to the registry, and the last-event slot is overwritten with it. -/
theorem c8_theorem (config : ResolvedConfig) (st : PipelineState) (ev : DomEvent) (now : Nat)
    (target el : Elem) (c c₂ : Option String)
    (hen : config.enabled = true)
    (htgt : ev.target = EventTarget.element target)
    (hfil : getTrackableElement st.fiberCache target config.ignoreSelectors ev.type =
      (some el, c))
    (hfib : resolveFiber c el = (none, c₂)) :
    handleEvent config st ev now =
      (some { type := ev.type, timestamp := now, element := extractElementInfo el,
              fiber := none, raw := ev, rawFiberNode := none },
       { lastEvent := some { type := ev.type, timestamp := now,
                             element := extractElementInfo el, fiber := none, raw := ev,
                             rawFiberNode := none },
         fiberCache := c₂ }) := by
  simp only [handleEvent, hen, htgt, hfil, hfib, extractFiberInfo, Bool.not_true]
  rfl

/-- C8 witness: clicking a `<button>` with no fiber attached anywhere still
dispatches a record whose `element.tagName` is `BUTTON` and whose `fiber`
and `rawFiberNode` are absent. -/
theorem c8_witness :
    ((handleEvent defaultConfig initState c8_event 7).1).map
        (fun r => (r.element.tagName, r.fiber, r.rawFiberNode)) =
      some ("BUTTON", none, none) := by
  rw [c8_theorem defaultConfig initState c8_event 7 c8_button c8_button none none
        rfl rfl (by decide) (by decide)]
  rfl

/-- C9: the component walk of `extractFiberInfo` starts at the node's parent
back-reference (the node itself is never considered), skips string-typed
host-element nodes, prefers `displayName` over the intrinsic function name,
sets `componentName` to the first name found — so the App→Form→SubmitButton→
button chain yields stack `['SubmitButton', 'Form', 'App']` and name
`'SubmitButton'` — and is bounded at 50 hops: a component sitting 51 parents
up is not found, one sitting 50 parents up is. -/
theorem c9_theorem :
    extractFiberInfo (some c9_host) =
      some { componentName := some "SubmitButton",
             componentStack := ["SubmitButton", "Form", "App"],
             handlers := ["onClick"] } ∧
    extractComponentInfo c9_skip = (some "App", ["App"]) ∧
    getComponentName
        (FiberNode.leaf (FiberType.fn (some "CustomName") (some "Inner")) none) =
      some "CustomName" ∧
    extractComponentInfo
        (FiberNode.node (FiberType.str "button") none (mkStrChain 50 c9_app)) =
      (none, []) ∧
    extractComponentInfo
        (FiberNode.node (FiberType.str "button") none (mkStrChain 49 c9_app)) =
      (some "App", ["App"]) := by
  refine ⟨by decide, by decide, by decide, ?_, ?_⟩
  · show walkComponents (mkStrChain 50 c9_app) 0 none [] = (none, [])
    rw [walkComponents_strChain 50 0 none [] c9_app]
    decide
  · show walkComponents (mkStrChain 49 c9_app) 0 none [] = (some "App", ["App"])
    rw [walkComponents_strChain 49 0 none [] c9_app]
    decide

/-- C10: a non-Element target makes `handleEvent` return without dispatching
and without touching any state; an Element target that is not an HTMLElement
is rejected by `getTrackableElement` before any category dispatch, for every
event name, so such a dispatch leaves the pipeline state fully unchanged. -/
theorem c10_theorem :
    (∀ (config : ResolvedConfig) (st : PipelineState) (ev : DomEvent) (now : Nat),
        ev.target = EventTarget.nonElement → handleEvent config st ev now = (none, st)) ∧
    (∀ (cache : Option String) (target : Elem) (isel : List String) (etype : String),
        target.dat.isHTML = false →
        getTrackableElement cache target isel etype = (none, cache)) ∧
    (∀ (config : ResolvedConfig) (st : PipelineState) (ev : DomEvent) (now : Nat)
        (target : Elem),
        ev.target = EventTarget.element target → target.dat.isHTML = false →
        handleEvent config st ev now = (none, st)) := by
  refine ⟨?_, getTrackableElement_nonHTML, ?_⟩
  · intro config st ev now htgt
    unfold handleEvent
    rw [htgt]
    cases config.enabled with
    | false => rfl
    | true => rfl
  · intro config st ev now target htgt hh
    have hfe := getTrackableElement_nonHTML st.fiberCache target config.ignoreSelectors
      ev.type hh
    cases hen : config.enabled with
    | false => simp only [handleEvent, hen]; rfl
    | true => simp only [handleEvent, hen, htgt, hfe, Bool.not_true]; rfl

/-- C10 witness: a non-Element target, an SVG-element filter call, and a
dispatch whose target is an SVG element all come back empty with the state
unchanged. -/
theorem c10_witness :
    handleEvent defaultConfig initState { type := "click", target := EventTarget.nonElement }
        0 = (none, initState) ∧
    getTrackableElement none c10_svg [] "click" = (none, none) ∧
    handleEvent defaultConfig initState
        { type := "scroll", target := EventTarget.element c10_svg } 0 = (none, initState) :=
  ⟨c10_theorem.1 defaultConfig initState _ 0 rfl,
   c10_theorem.2.1 none c10_svg [] "click" rfl,
   c10_theorem.2.2 defaultConfig initState _ 0 c10_svg rfl rfl⟩

end RAT
